import Mathlib

/-!
Verification of the hardshare daemon (py-ws/hardshare): a shallow embedding
of the control channel (`api.py:HSAPIClient`) and the instance lifecycle
(`core.py:WorkspaceInstance`), with theorems checking the specification's
claims against the embedded code.

Conventions of the embedding:
* JSON text frames sent by the daemon are represented by the inductive
  `Frame`, one constructor per `json.dumps({...})` site in the source.
* External effects (file existence, subprocess outcomes, polling results,
  messages delivered on the per-instance queue) are parameters of the
  embedded functions, so every function is executable and deterministic.
* Python exceptions escaping a routine are explicit result constructors
  (`protoError`, `keyError`, `raised`, `Except.error`).
-/

namespace Hardshare

/-- Tunnel hub association recorded by `WorkspaceInstance.find_tunnelhub`
(core.py): fields `id, ipv4, hostkey, listen_port, connect_port, connect_user`. -/
structure TunnelHub where
  id : String
  ipv4 : String
  hostkey : String
  listen_port : String
  connect_port : String
  connect_user : String
deriving DecidableEq, Repr

/-- The mutable fields of `core.WorkspaceInstance`.  Fields that Python sets
only later in the lifecycle (`instance_id`, `conntype`, `container_addr`,
`container_port_ssh`, `hostkey`, `tunnelkey_path`, `tunnelkey_public`) are
`Option`s, `none` meaning unset-or-None.  `tunnel_task` records whether a
tunnel controller task reference is held. -/
structure WorkspaceInstance where
  cprovider : String
  status : String
  container_name : String
  instance_id : Option String
  tunnelhub : Option TunnelHub
  tunnel_task : Bool
  conntype : Option String
  tunnelkey_path : Option String
  tunnelkey_public : Option String
  container_addr : Option String
  container_port_ssh : Option Nat
  hostkey : Option String
deriving DecidableEq, Repr

/-- `WorkspaceInstance.__init__` (core.py): status `'INIT'`, container name
`'rrc'`, everything else unset. -/
def WorkspaceInstance.init (cprovider : String) : WorkspaceInstance :=
  { cprovider := cprovider
    status := "INIT"
    container_name := "rrc"
    instance_id := none
    tunnelhub := none
    tunnel_task := false
    conntype := none
    tunnelkey_path := none
    tunnelkey_public := none
    container_addr := none
    container_port_ssh := none
    hostkey := none }

/-- Frames the daemon writes to the control channel, one constructor per
`json.dumps` site; every frame implicitly carries `v = 0`. -/
inductive Frame where
  | ack (mi : String)
  | nack (mi : String)
  | ackStatus (mi : String) (s : String)
  | pingResp (cmd : String) (thid : String) (id : String) (mi : String)
  | instanceStatus (s : String)
  | thSearch (id : Option String) (mo : Option String) (key : Option String)
  | vpnCreate (id : Option String) (mi : String)
  | vpnNewclient (id : Option String) (mi : String)
  | sshtunDelete
deriving DecidableEq, Repr

/-- An incoming control-channel payload after `json.loads`; each field is
`none` when the key is absent from the JSON object. -/
structure Payload where
  v : Option Int := none
  cmd : Option String := none
  mi : Option String := none
  id : Option String := none
  ct : Option String := none
  pr : Option String := none
  thid : Option String := none
deriving DecidableEq, Repr

/-- WebSocket message as seen by `handle_wsrecv`. -/
inductive WsMsg where
  | closed
  | error
  | text (p : Payload)
deriving DecidableEq, Repr

/-- The daemon-side state read and written by `HSAPIClient.handle_wsrecv`:
the current instance, the advertised workspace deployment (its id and
container provider), the configured `ssh_key` path (`none` when the key is
absent from the local configuration or is null), and the keys for which a
receive queue exists in `ws_recvmap`. -/
structure ClientState where
  current : Option WorkspaceInstance
  wdeployment_id : String
  cprovider : String
  ssh_key : Option String
  recvmap_keys : List String
deriving DecidableEq, Repr

/-- Result of one `handle_wsrecv` call.
* `endStream`: the message was CLOSED or ERROR, the handler returns False.
* `protoError`: payload failed the `v`/`cmd` assertions or carried an
  unknown command; the socket is closed and `ValueError` raised.
* `keyError`: a `payload[...]` access raised `KeyError`.
* `typeErr st warnings`: the `core.WorkspaceInstance(...)` constructor call
  on the launch-accept path raised `TypeError` — api.py passes the keyword
  arguments `cargs`, `image` and `terminate`, which core.py's `__init__`
  does not accept — escaping the handler after the receive queue was
  registered (state `st`) and `warnings` warnings logged; no instance is
  created, no task spawned and no reply sent.
* `ok st sent spawnedLaunch destroyCalled warnings`: the handler returned
  True with new state `st`, having sent `sent`, spawned launch tasks for the
  listed instance ids, called `destroy_instance` iff `destroyCalled` (the
  destroy subprocess failure modes are modelled by `destroy_instance`
  itself), and issued `warnings` calls to `logger.warning`. -/
inductive HandleResult where
  | endStream
  | protoError
  | keyError
  | typeErr (st : ClientState) (warnings : Nat)
  | ok (st : ClientState) (sent : List Frame) (spawnedLaunch : List String)
      (destroyCalled : Bool) (warnings : Nat)
deriving DecidableEq, Repr

/-- The `INSTANCE_LAUNCH` branch of `handle_wsrecv` (api.py).  When no
instance is current and `ct = 'sshtun'`: a missing/None `ssh_key`
configuration warns and replies NACK; a configured path that does not exist
on disk only warns and execution continues.  With a current instance, NACK.
Otherwise the receive queue is registered for the payload's `id` and the
handler constructs `core.WorkspaceInstance(cprovider=..., cargs=...,
image=..., terminate=...)` — which raises `TypeError`, because core.py's
`__init__` accepts only `cprovider` and `event_loop` (and `launch_instance`
has no `init_inside` parameter): the exception escapes before
`self.current` is assigned, before the launch task is spawned, and before
the ACK is sent. -/
def handle_instance_launch (st : ClientState) (fileExists : String → Bool)
    (p : Payload) : HandleResult :=
  match st.current with
  | some _ =>
    match p.mi with
    | none => .keyError
    | some mi => .ok st [.nack mi] [] false 0
  | none =>
    match p.ct with
    | none => .keyError
    | some ct =>
      if ct = "sshtun" ∧ st.ssh_key = none then
        match p.mi with
        | none => .keyError
        | some mi => .ok st [.nack mi] [] false 1
      else
        let warns : Nat :=
          if ct = "sshtun" then
            match st.ssh_key with
            | some k => if fileExists k then 0 else 1
            | none => 0
          else 0
        match p.id with
        | some iid =>
          .typeErr { st with recvmap_keys := iid :: st.recvmap_keys } warns
        | none => .keyError

/-- The acknowledgement condition of the `TH_PING` branch of
`handle_wsrecv` (api.py): an instance is current, the payload's `id` equals
the *workspace deployment* id, a tunnel hub is recorded and its id equals
the payload's `thid`. -/
def th_ping_is_ack (st : ClientState) (p : Payload) : Bool :=
  match st.current, p.id, p.thid with
  | some c, some pid, some thid =>
    decide (st.wdeployment_id = pid) &&
      (match c.tunnelhub with
       | some th => decide (th.id = thid)
       | none => false)
  | _, _, _ => false

/-- The `TH_PING` branch of `handle_wsrecv` (api.py): the response always
carries the payload's `thid`, the workspace deployment id and the payload's
`mi`; the command is ACK exactly under `th_ping_is_ack`. -/
def handle_th_ping (st : ClientState) (p : Payload) : HandleResult :=
  match p.thid, p.mi with
  | some thid, some mi =>
    .ok st [.pingResp (if th_ping_is_ack st p then "ACK" else "NACK")
      thid st.wdeployment_id mi] [] false 0
  | _, _ => .keyError

/-- Shared shape of the `TH_ACCEPT`, `VPN_CREATE` and `VPN_NEWCLIENT`
branches: NACK unless an instance is current and the payload's `id` equals
its `instance_id`; on match the payload is put on the instance's receive
queue and nothing is sent. -/
def handle_enqueue (st : ClientState) (p : Payload) : HandleResult :=
  let mismatch : Bool :=
    match st.current, p.id with
    | some c, some pid => decide (c.instance_id ≠ some pid)
    | _, _ => true
  if mismatch then
    match p.mi with
    | none => .keyError
    | some mi => .ok st [.nack mi] [] false 0
  else
    .ok st [] [] false 0

/-- `HSAPIClient.handle_wsrecv` (api.py): CLOSED/ERROR end the stream;
payloads failing the `v = 0` / `cmd` assertions, and unknown commands,
close the socket with `ValueError`; otherwise dispatch on `cmd`. -/
def handle_wsrecv (st : ClientState) (fileExists : String → Bool)
    (msg : WsMsg) : HandleResult :=
  match msg with
  | .closed => .endStream
  | .error => .endStream
  | .text p =>
    if p.v ≠ some 0 then .protoError
    else
      match p.cmd with
      | none => .protoError
      | some c =>
        if c = "INSTANCE_LAUNCH" then handle_instance_launch st fileExists p
        else if c = "INSTANCE_DESTROY" then
          match st.current with
          | none =>
            match p.mi with
            | none => .keyError
            | some mi => .ok st [.nack mi] [] false 0
          | some _ =>
            match p.mi with
            | none => .keyError
            | some mi => .ok { st with current := none } [.ack mi] [] true 0
        else if c = "INSTANCE_STATUS" then
          match st.current with
          | none =>
            match p.mi with
            | none => .keyError
            | some mi => .ok st [.nack mi] [] false 0
          | some cur =>
            match p.mi with
            | none => .keyError
            | some mi => .ok st [.ackStatus mi cur.status] [] false 0
        else if c = "TH_ACCEPT" then handle_enqueue st p
        else if c = "TH_PING" then handle_th_ping st p
        else if c = "VPN_CREATE" then handle_enqueue st p
        else if c = "VPN_NEWCLIENT" then handle_enqueue st p
        else .protoError

/-- `WorkspaceInstance.get_container_sshport` (core.py): with the cprovider
already validated, poll `<cprovider> port rrc 22` once per second until the
deadline; each poll either yields the forwarded port (returncode 0) or
fails.  `poll n` is the outcome of the attempt when `n` seconds of the
timeout remain; `none` after the deadline. -/
def get_container_sshport (timeout : Nat) (poll : Nat → Option Nat) : Option Nat :=
  match timeout with
  | 0 => none
  | Nat.succ t =>
    match poll (Nat.succ t) with
    | some port => some port
    | none => get_container_sshport t poll

/-- `WorkspaceInstance.get_container_hostkey` (core.py): poll
`<cprovider> cp rrc:/etc/ssh/ssh_host_ecdsa_key.pub .` once per second until
the deadline, returning the copied key on the first success and `none` after
the deadline. -/
def get_container_hostkey (timeout : Nat) (poll : Nat → Option String) : Option String :=
  match timeout with
  | 0 => none
  | Nat.succ t =>
    match poll (Nat.succ t) with
    | some key => some key
    | none => get_container_hostkey t poll

/-- The `TH_ACCEPT` reply as consumed by `find_tunnelhub` from the instance
queue; all the fields the routine reads. -/
structure THAccept where
  v : Int
  cmd : String
  id : String
  thid : String
  ipv4 : String
  hostkey : String
  port : String
  thport : String
  thuser : String
  mi : String
deriving DecidableEq, Repr

/-- The `if self.tunnelkey_public:` truthiness test of `find_tunnelhub`
(core.py): the `key` field is included in `TH_SEARCH` only when the tunnel
public key is set and non-empty. -/
def truthy_key (k : Option String) : Option String :=
  match k with
  | some s => if s = "" then none else some s
  | none => none

/-- `WorkspaceInstance.find_tunnelhub` (core.py): assert no hub is recorded,
send `TH_SEARCH` (with the tunnel public key only when it is a non-empty
string, Python truthiness), await the reply, assert it is a well-addressed
`TH_ACCEPT`, record the hub association and send `ACK` with the reply's
`mi`.  `Except.error frames` is an `AssertionError` raised after sending
`frames`. -/
def find_tunnelhub (inst : WorkspaceInstance) (res : THAccept) :
    Except (List Frame) (WorkspaceInstance × List Frame) :=
  if inst.tunnelhub ≠ none then .error []
  else
    let search : Frame :=
      .thSearch inst.instance_id inst.conntype (truthy_key inst.tunnelkey_public)
    if res.v = 0 ∧ inst.instance_id = some res.id ∧ res.cmd = "TH_ACCEPT" then
      .ok ({ inst with
               tunnelhub := some
                 { id := res.thid
                   ipv4 := res.ipv4
                   hostkey := res.hostkey
                   listen_port := res.port
                   connect_port := res.thport
                   connect_user := res.thuser } },
           [search, .ack res.mi])
    else .error [search]

/-- External outcomes consumed by one `launch_instance` run: the contents of
the tunnel public-key file (`none` = `open` raised), success of the
`<cprovider> run` call, the `NetworkSettings.IPAddress` reported by
`inspect` (`none` = key absent), the per-second polling outcomes of
`get_container_sshport` and `get_container_hostkey`, and success of the
`prepare_commands`/`movekey_commands` subprocess sequence. -/
structure LaunchEnv where
  pubkeyFile : Option String
  createOk : Bool
  inspectAddr : Option String
  sshPortPoll : Nat → Option Nat
  hostkeyPoll : Nat → Option String
  prepareOk : Bool

/-- Result of `launch_instance`: `raised` is the `ValueError` for an unknown
cprovider escaping the routine; `completed inst sent tunnelTaskSpawned`
means the routine returned with final instance fields `inst`, having sent
`sent`, and spawned a tunnel controller task iff `tunnelTaskSpawned`. -/
inductive LaunchResult where
  | raised
  | completed (inst : WorkspaceInstance) (sent : List Frame) (tunnelTaskSpawned : Bool)
deriving DecidableEq, Repr

/-- The `try` block of `WorkspaceInstance.launch_instance` (core.py),
embedded with `Except`: the error value carries the fields already assigned
when the exception was raised (Python mutates `self` in place).  In order:
store `tunnelkey_path` and read the adjacent `.pub` file; write the initial
public key to a temporary file; run `<cprovider> run`; resolve the container
address and ssh port (docker: `inspect`, port 22; podman: loopback,
`get_container_sshport`); fetch the host key (bounded poll, result stored
unchecked); `assert self.container_addr is not None`; run the
prepare/movekey subprocess commands. -/
def launch_body (inst : WorkspaceInstance) (tunnelkey_path : Option String)
    (env : LaunchEnv) : Except WorkspaceInstance WorkspaceInstance :=
  let inst := { inst with tunnelkey_path := tunnelkey_path }
  let step1 : Except WorkspaceInstance WorkspaceInstance :=
    match tunnelkey_path with
    | some _ =>
      match env.pubkeyFile with
      | none => .error inst
      | some k => .ok { inst with tunnelkey_public := some k }
    | none => .ok { inst with tunnelkey_public := none }
  match step1 with
  | .error e => .error e
  | .ok inst =>
    if ¬ env.createOk then .error inst
    else
      let inst :=
        if inst.cprovider = "docker" then
          { inst with
              container_addr := env.inspectAddr
              container_port_ssh := some 22 }
        else
          { inst with
              container_addr := some "127.0.0.1"
              container_port_ssh := get_container_sshport 10 env.sshPortPoll }
      let inst := { inst with hostkey := get_container_hostkey 45 env.hostkeyPoll }
      if inst.container_addr = none then .error inst
      else if ¬ env.prepareOk then .error inst
      else .ok inst

/-- `WorkspaceInstance.launch_instance` (core.py).  The unknown-cprovider
`ValueError` is raised before the `try` block.  The `except` clause catches
any exception from the body and sets status `INIT_FAIL`.  After the
try/except the routine emits `INSTANCE_STATUS` with the current status and
spawns the tunnel controller task (vpn or sshtun) unconditionally. -/
def launch_instance (inst0 : WorkspaceInstance) (instance_id : String)
    (conntype : String) (tunnelkey_path : Option String) (env : LaunchEnv) :
    LaunchResult :=
  if inst0.cprovider ≠ "docker" ∧ inst0.cprovider ≠ "podman" then .raised
  else
    match launch_body
        { inst0 with
            conntype := some conntype
            instance_id := some instance_id } tunnelkey_path env with
    | .ok inst1 => .completed inst1 [.instanceStatus inst1.status] true
    | .error instF =>
      .completed { instF with status := "INIT_FAIL" }
        [.instanceStatus ({ instF with status := "INIT_FAIL" } :
          WorkspaceInstance).status] true

/-- Result of the startup phase of `maintain_tunnel`:
* `waiting`: the routine is still awaiting (`container_addr` unset, or no
  reply ever arrives on the queue) and has changed nothing;
* `raised`: an assertion inside `find_tunnelhub` raised, after sending
  `sentBeforeRaise`;
* `started inst sent`: the ssh subprocess was spawned, status set `READY`
  and `INSTANCE_STATUS` emitted. -/
inductive TunnelStartup where
  | waiting
  | raised (sentBeforeRaise : List Frame)
  | started (inst : WorkspaceInstance) (sent : List Frame)
deriving DecidableEq, Repr

/-- The startup phase of `WorkspaceInstance.maintain_tunnel` (core.py): wait
until `container_addr` is set; associate with a tunnel hub via
`find_tunnelhub` if none is recorded (`reply` is the message the queue
delivers, `none` if none ever does); spawn the ssh tunnel subprocess; set
status to `READY` (whatever it was before) and emit `INSTANCE_STATUS`. -/
def maintain_tunnel_startup (inst : WorkspaceInstance) (reply : Option THAccept) :
    TunnelStartup :=
  match inst.container_addr with
  | none => .waiting
  | some _ =>
    match inst.tunnelhub with
    | none =>
      match reply with
      | none => .waiting
      | some r =>
        match find_tunnelhub inst r with
        | .error sent => .raised sent
        | .ok (inst1, sent) =>
          .started { inst1 with status := "READY" }
            (sent ++ [.instanceStatus "READY"])
    | some _ =>
      .started { inst with status := "READY" } [.instanceStatus "READY"]

/-- A reply consumed by `start_vpn` from the instance queue, for the
`VPN_CREATE` and `VPN_NEWCLIENT` rounds; `ovpn` (the client configuration
blob) is read only from the second round's reply. -/
structure VpnReply where
  v : Int
  mi : String
  cmd : String
  id : String
  ovpn : String
deriving DecidableEq, Repr

/-- Result of the startup phase of `start_vpn`:
* `waiting`: still awaiting (`container_addr` unset, or a queue reply that
  never arrives), nothing changed beyond the frames already sent;
* `raised`: the cprovider `ValueError` or an assertion failure escaped,
  after sending `sentBeforeRaise`;
* `started inst sent`: the VPN client was spawned, status set `READY` and
  `INSTANCE_STATUS` emitted;
* `initFail inst sent`: a step of the `try` block (config copy,
  pre-command, client spawn) failed, status set `INIT_FAIL`,
  `INSTANCE_STATUS` emitted and the routine returned. -/
inductive VpnStartup where
  | waiting (sent : List Frame)
  | raised (sentBeforeRaise : List Frame)
  | started (inst : WorkspaceInstance) (sent : List Frame)
  | initFail (inst : WorkspaceInstance) (sent : List Frame)
deriving DecidableEq, Repr

/-- The two request/response rounds and the `try`/`except` block of
`WorkspaceInstance.start_vpn` (core.py), entered once the container address
is known and a hub is associated.  `mi1`/`mi2` stand for the fresh
`uuid.uuid4()` correlation ids; `reply1`/`reply2` are the queue replies
(`none` when no reply ever arrives); `copyOk`, `preOk` and `spawnOk` are
the outcomes of the ovpn-config copy, the two `pre_commands` and the
VPN-client spawn, any failure of which is caught by the bare `except` that
sets status `INIT_FAIL` and emits it. -/
def start_vpn_body (inst : WorkspaceInstance) (sent0 : List Frame)
    (reply1 reply2 : Option VpnReply) (mi1 mi2 : String)
    (copyOk preOk spawnOk : Bool) : VpnStartup :=
  let f1 : Frame := .vpnCreate inst.instance_id mi1
  match reply1 with
  | none => .waiting (sent0 ++ [f1])
  | some r1 =>
    if ¬ (r1.v = 0 ∧ r1.mi = mi1 ∧ r1.cmd = "ACK" ∧
          inst.instance_id = some r1.id) then
      .raised (sent0 ++ [f1])
    else
      let f2 : Frame := .vpnNewclient inst.instance_id mi2
      match reply2 with
      | none => .waiting (sent0 ++ [f1, f2])
      | some r2 =>
        if ¬ (r2.v = 0 ∧ r2.mi = mi2 ∧ r2.cmd = "ACK" ∧
              inst.instance_id = some r2.id) then
          .raised (sent0 ++ [f1, f2])
        else
          if copyOk ∧ preOk ∧ spawnOk then
            .started { inst with status := "READY" }
              (sent0 ++ [f1, f2, .instanceStatus "READY"])
          else
            .initFail { inst with status := "INIT_FAIL" }
              (sent0 ++ [f1, f2, .instanceStatus "INIT_FAIL"])

/-- The startup phase of `WorkspaceInstance.start_vpn` (core.py): raise
`ValueError` for an unknown cprovider; wait until `container_addr` is set;
associate with a tunnel hub via `find_tunnelhub` if none is recorded; then
run the VPN rounds and the `try`/`except` block (`start_vpn_body`). -/
def start_vpn_startup (inst : WorkspaceInstance) (hubReply : Option THAccept)
    (reply1 reply2 : Option VpnReply) (mi1 mi2 : String)
    (copyOk preOk spawnOk : Bool) : VpnStartup :=
  if inst.cprovider ≠ "docker" ∧ inst.cprovider ≠ "podman" then .raised []
  else
    match inst.container_addr with
    | none => .waiting []
    | some _ =>
      match inst.tunnelhub with
      | none =>
        match hubReply with
        | none => .waiting []
        | some r =>
          match find_tunnelhub inst r with
          | .error sent => .raised sent
          | .ok (inst1, sent) =>
            start_vpn_body inst1 sent reply1 reply2 mi1 mi2
              copyOk preOk spawnOk
      | some _ =>
        start_vpn_body inst [] reply1 reply2 mi1 mi2 copyOk preOk spawnOk

/-- Observable steps of `destroy_instance`, in execution order. -/
inductive DAction where
  | rmContainer
  | cancelTunnel
  | waitTunnel
deriving DecidableEq, Repr

/-- Result of `destroy_instance`: `raised` when the `rm -f` subprocess
failed (`subprocess.check_call` raised), with the actions performed up to
that point. -/
inductive DestroyResult where
  | raised (actions : List DAction)
  | ok (inst : WorkspaceInstance) (actions : List DAction)
deriving DecidableEq, Repr

/-- `WorkspaceInstance.destroy_instance` (core.py): run
`<cprovider> rm -f rrc` first; then, if a tunnel task exists, cancel it,
poll until it is done, and drop the reference.  `rmOk` is the success of
the removal subprocess. -/
def destroy_instance (inst : WorkspaceInstance) (rmOk : Bool) : DestroyResult :=
  if ¬ rmOk then .raised [.rmContainer]
  else if inst.tunnel_task then
    .ok { inst with tunnel_task := false } [.rmContainer, .cancelTunnel, .waitTunnel]
  else
    .ok inst [.rmContainer]

/-- How one iteration of the `while active` loop of `HSAPIClient.run`
(api.py) ends.  `t` is the wall-clock time (seconds) at which the `except`
handler runs.
* `cancel`: `asyncio.CancelledError` was caught;
* `connectFail t`: `ws_connect` (or session setup) raised before the
  connection was established;
* `streamFail isProto t`: the connection was established (so the first-loss
  marker was cleared) and then an exception was raised while processing the
  stream; `isProto` marks the `ValueError` that `handle_wsrecv` raises on a
  protocol violation;
* `streamClosed`: the connection was established and the message loop ended
  without an exception. -/
inductive ConnEvent where
  | cancel
  | connectFail (t : Nat)
  | streamFail (isProto : Bool) (t : Nat)
  | streamClosed
deriving DecidableEq, Repr

/-- How `HSAPIClient.run` terminates. `pending lost` means the supplied
event list was exhausted with the loop still running (first-loss marker
`lost`). -/
inductive RunOutcome where
  | cancelledExit
  | gaveUp
  | pending (lost : Option Nat)
deriving DecidableEq, Repr

/-- One iteration of the reconnection loop of `HSAPIClient.run` (api.py):
`Sum.inl lost` means the loop continues (a reconnection will be attempted)
with first-loss marker `lost`; `Sum.inr` means the loop exits.  The
`except Exception` clause treats every non-cancellation failure alike
(the protocol-violation `ValueError` included): record the time of first
loss, or `break` when more than 1200 s have passed since it. -/
def run_step (lost : Option Nat) (e : ConnEvent) : Sum (Option Nat) RunOutcome :=
  match e with
  | .cancel => .inr .cancelledExit
  | .connectFail t =>
    match lost with
    | none => .inl (some t)
    | some t0 => if t - t0 > 1200 then .inr .gaveUp else .inl (some t0)
  | .streamFail _ t =>
    match lost with
    | none => .inl (some t)
    | some t0 => if t - t0 > 1200 then .inr .gaveUp else .inl (some t0)
  | .streamClosed => .inl none

/-- The reconnection loop of `HSAPIClient.run`, folded over the iteration
outcomes.  A successful connection clears the first-loss marker before its
stream outcome is processed, so `streamFail`/`streamClosed` events act on a
cleared marker.  The routine is embedded in `Except` to record whether an
error propagates out of `run`: the code catches every exception, so no path
produces `Except.error`. -/
def run_loop (lost : Option Nat) (evs : List ConnEvent) : Except Unit RunOutcome :=
  match evs with
  | [] => .ok (.pending lost)
  | e :: rest =>
    let lostAtHandler : Option Nat :=
      match e with
      | .streamFail _ _ => none
      | .streamClosed => none
      | _ => lost
    match run_step lostAtHandler e with
    | .inl lost1 => run_loop lost1 rest
    | .inr o => .ok o

/-- The socket path probed by `WorkspaceInstance.inspect_instance`
(core.py): `~/.rerobots/hardshare.sock`, with no workspace identifier. -/
def inspect_probe_path (home : String) : String :=
  home ++ "/.rerobots/hardshare.sock"

/-- The socket path bound by `HSAPIClient.handle_dsocket` (api.py):
`~/.rerobots/hardshare.<workspace_id>.sock`. -/
def daemon_socket_path (home : String) (wdid : String) : String :=
  home ++ "/.rerobots/hardshare." ++ wdid ++ ".sock"

/-- The `daemon_found` probe of `inspect_instance`: connect to the fixed
probe path and send `STATUS`; the connect succeeds exactly when some bound
socket lives at that path (otherwise `FileNotFoundError` is caught and the
field stays `False`). -/
def inspect_daemon_found (home : String) (boundSockets : List String) : Bool :=
  (inspect_probe_path home) ∈ boundSockets

/-! ## Claim theorems -/

/-- C1: while an instance is current, an `INSTANCE_LAUNCH` command is
answered with `NACK` carrying the command's `mi`, with no state change, no
spawned launch task, no destroy call and no warning; and conversely, any
`INSTANCE_LAUNCH` handling that spawns a launch task started from a state
with no current instance and replied `ACK` with the command's `mi`. -/
theorem C1_single_instance_nack :
    (∀ (st : ClientState) (fe : String → Bool) (p : Payload)
        (i : WorkspaceInstance) (mi : String),
      st.current = some i → p.v = some 0 → p.cmd = some "INSTANCE_LAUNCH" →
      p.mi = some mi →
      handle_wsrecv st fe (.text p) = .ok st [.nack mi] [] false 0) ∧
    (∀ (st : ClientState) (fe : String → Bool) (p : Payload)
        (st' : ClientState) (sent : List Frame) (sp : List String)
        (d : Bool) (w : Nat),
      p.cmd = some "INSTANCE_LAUNCH" →
      handle_wsrecv st fe (.text p) = .ok st' sent sp d w →
      sp ≠ [] →
      st.current = none ∧ ∃ mi, p.mi = some mi ∧ sent = [.ack mi]) := by
  constructor
  · intro st fe p i mi hcur hv hcmd hmi
    simp [handle_wsrecv, hv, hcmd, handle_instance_launch, hcur, hmi]
  · intro st fe p st' sent sp d w hcmd hrun hsp
    by_cases hv : p.v = some 0
    · rw [handle_wsrecv] at hrun
      simp only [hv, hcmd] at hrun
      simp only [ne_eq, not_true_eq_false, reduceIte, if_pos rfl] at hrun
      rw [handle_instance_launch] at hrun
      cases hcur : st.current with
      | some c =>
        simp only [hcur] at hrun
        cases hmi : p.mi with
        | none => simp [hmi] at hrun
        | some mi =>
          simp only [hmi] at hrun
          cases hrun
          exact absurd rfl hsp
      | none =>
        refine ⟨rfl, ?_⟩
        simp only [hcur] at hrun
        cases hct : p.ct with
        | none => simp [hct] at hrun
        | some ct =>
          simp only [hct] at hrun
          by_cases hkey : ct = "sshtun" ∧ st.ssh_key = none
          · rw [if_pos hkey] at hrun
            cases hmi : p.mi with
            | none => simp [hmi] at hrun
            | some mi =>
              simp only [hmi] at hrun
              cases hrun
              exact absurd rfl hsp
          · rw [if_neg hkey] at hrun
            cases hid : p.id with
            | none => simp [hid] at hrun
            | some iid => simp [hid] at hrun
    · rw [handle_wsrecv] at hrun
      simp [hv] at hrun

/-- Concrete exercise of `C1_single_instance_nack`. -/
theorem C1_single_instance_nack_witness :
    handle_wsrecv
      { current := some (WorkspaceInstance.init "docker")
        wdeployment_id := "w1"
        cprovider := "docker"
        ssh_key := none
        recvmap_keys := [] }
      (fun _ => true)
      (.text { v := some 0, cmd := some "INSTANCE_LAUNCH", mi := some "m9" })
    = .ok
      { current := some (WorkspaceInstance.init "docker")
        wdeployment_id := "w1"
        cprovider := "docker"
        ssh_key := none
        recvmap_keys := [] }
      [.nack "m9"] [] false 0 :=
  C1_single_instance_nack.1 _ (fun _ => true) _ _ "m9" rfl rfl rfl rfl

/-- Helper: `launch_body` never modifies the `status` field — neither its
normal result nor the partially-updated instance carried out by an
exception. -/
theorem launch_body_preserves_status (inst : WorkspaceInstance)
    (tkp : Option String) (env : LaunchEnv) :
    (∀ r, launch_body inst tkp env = .ok r → r.status = inst.status) ∧
    (∀ e, launch_body inst tkp env = .error e → e.status = inst.status) := by
  have main :
      (match launch_body inst tkp env with
       | .ok r => r.status = inst.status
       | .error e => e.status = inst.status) := by
    unfold launch_body
    rcases tkp with _ | tk <;>
      rcases hpk : env.pubkeyFile with _ | k <;>
      rcases hco : env.createOk with _ | _ <;>
      rcases hpo : env.prepareOk with _ | _ <;>
      by_cases hd : inst.cprovider = "docker" <;>
      rcases hia : env.inspectAddr with _ | addr <;>
      simp_all
  constructor
  · intro r h
    rw [h] at main
    exact main
  · intro e h
    rw [h] at main
    exact main

/-- Helper: `launch_instance` on a valid cprovider always completes, always
emits exactly one `INSTANCE_STATUS` frame carrying the final status, and
always spawns the tunnel controller task. -/
theorem launch_instance_completes (inst0 : WorkspaceInstance)
    (iid ct : String) (tkp : Option String) (env : LaunchEnv)
    (hcp : inst0.cprovider = "docker" ∨ inst0.cprovider = "podman") :
    ∃ inst, launch_instance inst0 iid ct tkp env
      = .completed inst [.instanceStatus inst.status] true ∧
      (inst.status = inst0.status ∨ inst.status = "INIT_FAIL") := by
  unfold launch_instance
  have hif : ¬ (inst0.cprovider ≠ "docker" ∧ inst0.cprovider ≠ "podman") := by
    rcases hcp with h | h <;> simp [h]
  rw [if_neg hif]
  generalize hb : launch_body _ tkp env = q
  cases q with
  | ok r =>
    exact ⟨r, rfl, Or.inl ((launch_body_preserves_status
      { inst0 with conntype := some ct, instance_id := some iid }
      tkp env).1 r hb)⟩
  | error e =>
    exact ⟨{ e with status := "INIT_FAIL" }, rfl, Or.inr rfl⟩

/-- Environment for the C2/C3 counterexamples: the tunnel key file reads
fine, the container is created, `inspect` reports an address, the host key
is copied out at once, but the prepare/movekey subprocess commands fail. -/
def envPrepareFail : LaunchEnv :=
  { pubkeyFile := some "PUB"
    createOk := true
    inspectAddr := some "172.17.0.2"
    sshPortPoll := fun _ => none
    hostkeyPoll := fun _ => some "HK"
    prepareOk := false }

/-- The instance `launch_instance` leaves behind under `envPrepareFail`:
`INIT_FAIL`, but with the container address resolved. -/
def instPrepareFail : WorkspaceInstance :=
  { cprovider := "docker"
    status := "INIT_FAIL"
    container_name := "rrc"
    instance_id := some "i1"
    tunnelhub := none
    tunnel_task := false
    conntype := some "sshtun"
    tunnelkey_path := some "/root/.ssh/tunnelkey"
    tunnelkey_public := some "PUB"
    container_addr := some "172.17.0.2"
    container_port_ssh := some 22
    hostkey := some "HK" }

/-- A well-formed `TH_ACCEPT` reply for instance `i1`. -/
def thAcceptI1 : THAccept :=
  { v := 0
    cmd := "TH_ACCEPT"
    id := "i1"
    thid := "h1"
    ipv4 := "10.0.0.9"
    hostkey := "HOSTK"
    port := "2210"
    thport := "2222"
    thuser := "th"
    mi := "m2" }

/-- The instance after the tunnel controller startup ran on
`instPrepareFail`: hub `h1` recorded and status `READY`. -/
def c2ready : WorkspaceInstance :=
  { instPrepareFail with
      status := "READY"
      tunnelhub := some
        { id := "h1", ipv4 := "10.0.0.9", hostkey := "HOSTK"
          listen_port := "2210", connect_port := "2222"
          connect_user := "th" } }

/-- C2, counterexample: the status order is not monotone as claimed.  A
launch whose prepare commands fail ends with status `INIT_FAIL` (container
address resolved) and still spawns the tunnel controller task; the tunnel
controller startup then moves the status from `INIT_FAIL` to `READY`,
which the claim says no operation of the daemon ever does. -/
theorem C2_status_monotonicity_cx :
    launch_instance (WorkspaceInstance.init "docker") "i1" "sshtun"
        (some "/root/.ssh/tunnelkey") envPrepareFail
      = .completed instPrepareFail [.instanceStatus "INIT_FAIL"] true ∧
    instPrepareFail.status = "INIT_FAIL" ∧
    maintain_tunnel_startup instPrepareFail (some thAcceptI1)
      = .started c2ready
          [.thSearch (some "i1") (some "sshtun") (some "PUB"), .ack "m2",
           .instanceStatus "READY"] ∧
    c2ready.status = "READY" :=
  ⟨rfl, rfl, rfl, rfl⟩

/-- Helper: the VPN rounds and `try`/`except` block of `start_vpn` set
status `READY` on success and `INIT_FAIL` on a failed `try` block,
regardless of the prior status. -/
theorem start_vpn_body_status (inst : WorkspaceInstance) (sent0 : List Frame)
    (reply1 reply2 : Option VpnReply) (mi1 mi2 : String) (c p sp : Bool) :
    (∀ inst' sent, start_vpn_body inst sent0 reply1 reply2 mi1 mi2 c p sp
        = .started inst' sent → inst'.status = "READY") ∧
    (∀ inst' sent, start_vpn_body inst sent0 reply1 reply2 mi1 mi2 c p sp
        = .initFail inst' sent → inst'.status = "INIT_FAIL") := by
  unfold start_vpn_body
  constructor <;> intro inst' sent h <;>
    rcases reply1 with _ | r1 <;>
    rcases reply2 with _ | r2 <;>
    (try dsimp only at h) <;>
    (try split_ifs at h) <;>
    first
      | (cases h; rfl)
      | simp at h

/-- Helper: `start_vpn_startup` sets status `READY` when it reports
`started` and `INIT_FAIL` when it reports `initFail`, whatever the prior
status was. -/
theorem start_vpn_startup_status (inst : WorkspaceInstance)
    (hubReply : Option THAccept) (reply1 reply2 : Option VpnReply)
    (mi1 mi2 : String) (c p sp : Bool) :
    (∀ inst' sent, start_vpn_startup inst hubReply reply1 reply2 mi1 mi2 c p sp
        = .started inst' sent → inst'.status = "READY") ∧
    (∀ inst' sent, start_vpn_startup inst hubReply reply1 reply2 mi1 mi2 c p sp
        = .initFail inst' sent → inst'.status = "INIT_FAIL") := by
  unfold start_vpn_startup
  constructor
  · intro inst' sent h
    by_cases hcp : inst.cprovider ≠ "docker" ∧ inst.cprovider ≠ "podman"
    · rw [if_pos hcp] at h
      exact absurd h (by simp)
    · rw [if_neg hcp] at h
      split at h
      · exact absurd h (by simp)
      · split at h
        · split at h
          · exact absurd h (by simp)
          · split at h
            · exact absurd h (by simp)
            · exact (start_vpn_body_status _ _ _ _ _ _ _ _ _).1 inst' sent h
        · exact (start_vpn_body_status _ _ _ _ _ _ _ _ _).1 inst' sent h
  · intro inst' sent h
    by_cases hcp : inst.cprovider ≠ "docker" ∧ inst.cprovider ≠ "podman"
    · rw [if_pos hcp] at h
      exact absurd h (by simp)
    · rw [if_neg hcp] at h
      split at h
      · exact absurd h (by simp)
      · split at h
        · split at h
          · exact absurd h (by simp)
          · split at h
            · exact absurd h (by simp)
            · exact (start_vpn_body_status _ _ _ _ _ _ _ _ _).2 inst' sent h
        · exact (start_vpn_body_status _ _ _ _ _ _ _ _ _).2 inst' sent h

/-- C2, amended: the status assignments of the daemon's instance
operations, covering every assignment site in the source.  The constructor
sets `INIT`; `launch_instance` ends in `INIT` or `INIT_FAIL`; both tunnel
controller startups — reverse tunnel and VPN — set `READY` regardless of
the prior status (so `INIT_FAIL → READY` does occur, launch spawning the
controller even after a failure, as the counterexample shows); the VPN
controller's failed `try` block sets `INIT_FAIL`; and no operation ever
assigns `TERMINATED`. -/
theorem C2_status_transitions_amended :
    (∀ (cp : String), (WorkspaceInstance.init cp).status = "INIT") ∧
    (∀ (cp iid ct : String) (tkp : Option String) (env : LaunchEnv)
        (inst : WorkspaceInstance) (sent : List Frame) (sp : Bool),
      launch_instance (WorkspaceInstance.init cp) iid ct tkp env
        = .completed inst sent sp →
      (inst.status = "INIT" ∨ inst.status = "INIT_FAIL") ∧
        inst.status ≠ "TERMINATED") ∧
    (∀ (inst inst' : WorkspaceInstance) (reply : Option THAccept)
        (sent : List Frame),
      maintain_tunnel_startup inst reply = .started inst' sent →
      inst'.status = "READY" ∧ inst'.status ≠ "TERMINATED") ∧
    (∀ (inst : WorkspaceInstance) (hubReply : Option THAccept)
        (reply1 reply2 : Option VpnReply) (mi1 mi2 : String)
        (c p sp : Bool) (inst' : WorkspaceInstance) (sent : List Frame),
      start_vpn_startup inst hubReply reply1 reply2 mi1 mi2 c p sp
          = .started inst' sent →
      inst'.status = "READY" ∧ inst'.status ≠ "TERMINATED") ∧
    (∀ (inst : WorkspaceInstance) (hubReply : Option THAccept)
        (reply1 reply2 : Option VpnReply) (mi1 mi2 : String)
        (c p sp : Bool) (inst' : WorkspaceInstance) (sent : List Frame),
      start_vpn_startup inst hubReply reply1 reply2 mi1 mi2 c p sp
          = .initFail inst' sent →
      inst'.status = "INIT_FAIL" ∧ inst'.status ≠ "TERMINATED") := by
  refine ⟨fun cp => rfl, ?_, ?_, ?_, ?_⟩
  · intro cp iid ct tkp env inst sent sp h
    by_cases hcp : cp = "docker" ∨ cp = "podman"
    · obtain ⟨inst', heq, hst⟩ :=
        launch_instance_completes (WorkspaceInstance.init cp) iid ct tkp env hcp
      rw [h] at heq
      obtain ⟨h1, -, -⟩ := LaunchResult.completed.inj heq
      subst h1
      have hst' : inst.status = "INIT" ∨ inst.status = "INIT_FAIL" := hst
      refine ⟨hst', ?_⟩
      rcases hst' with h2 | h2 <;> simp [h2]
    · push_neg at hcp
      have hraised : launch_instance (WorkspaceInstance.init cp) iid ct tkp env
          = .raised := by
        unfold launch_instance
        exact if_pos ⟨hcp.1, hcp.2⟩
      rw [hraised] at h
      exact absurd h (by simp)
  · intro inst inst' reply sent h
    unfold maintain_tunnel_startup at h
    split at h
    · exact absurd h (by simp)
    · split at h
      · split at h
        · exact absurd h (by simp)
        · split at h
          · exact absurd h (by simp)
          · cases h
            exact ⟨rfl, by simp⟩
      · cases h
        exact ⟨rfl, by simp⟩
  · intro inst hubReply reply1 reply2 mi1 mi2 c p sp inst' sent h
    have hs := (start_vpn_startup_status inst hubReply reply1 reply2
      mi1 mi2 c p sp).1 inst' sent h
    refine ⟨hs, ?_⟩
    rw [hs]
    simp
  · intro inst hubReply reply1 reply2 mi1 mi2 c p sp inst' sent h
    have hs := (start_vpn_startup_status inst hubReply reply1 reply2
      mi1 mi2 c p sp).2 inst' sent h
    refine ⟨hs, ?_⟩
    rw [hs]
    simp

/-- `ACK` replies to the two VPN rounds, for the C2 witness. -/
def vpnAckA : VpnReply :=
  { v := 0, mi := "mA", cmd := "ACK", id := "i1", ovpn := "" }

/-- Second-round `ACK` carrying the client configuration blob. -/
def vpnAckB : VpnReply :=
  { v := 0, mi := "mB", cmd := "ACK", id := "i1", ovpn := "OVPN" }

/-- The instance after a failed VPN `try` block on `c2ready`. -/
def c2vpnFail : WorkspaceInstance :=
  { c2ready with status := "INIT_FAIL" }

/-- Concrete exercise of `C2_status_transitions_amended`. -/
theorem C2_status_transitions_amended_witness :
    (WorkspaceInstance.init "docker").status = "INIT" ∧
    ((instPrepareFail.status = "INIT" ∨ instPrepareFail.status = "INIT_FAIL") ∧
      instPrepareFail.status ≠ "TERMINATED") ∧
    (c2ready.status = "READY" ∧ c2ready.status ≠ "TERMINATED") ∧
    (c2ready.status = "READY" ∧ c2ready.status ≠ "TERMINATED") ∧
    (c2vpnFail.status = "INIT_FAIL" ∧ c2vpnFail.status ≠ "TERMINATED") :=
  ⟨C2_status_transitions_amended.1 "docker",
   C2_status_transitions_amended.2.1 "docker" "i1" "sshtun"
      (some "/root/.ssh/tunnelkey") envPrepareFail instPrepareFail
      [.instanceStatus "INIT_FAIL"] true rfl,
   C2_status_transitions_amended.2.2.1 instPrepareFail c2ready
      (some thAcceptI1)
      [.thSearch (some "i1") (some "sshtun") (some "PUB"), .ack "m2",
       .instanceStatus "READY"] rfl,
   C2_status_transitions_amended.2.2.2.1 c2ready none (some vpnAckA)
      (some vpnAckB) "mA" "mB" true true true c2ready
      [.vpnCreate (some "i1") "mA", .vpnNewclient (some "i1") "mB",
       .instanceStatus "READY"] rfl,
   C2_status_transitions_amended.2.2.2.2 c2ready none (some vpnAckA)
      (some vpnAckB) "mA" "mB" true true false c2vpnFail
      [.vpnCreate (some "i1") "mA", .vpnNewclient (some "i1") "mB",
       .instanceStatus "INIT_FAIL"] rfl⟩

/-- Environment for the C3 counterexample: the `<cprovider> run` call
fails. -/
def envCreateFail : LaunchEnv :=
  { pubkeyFile := none
    createOk := false
    inspectAddr := none
    sshPortPoll := fun _ => none
    hostkeyPoll := fun _ => none
    prepareOk := true }

/-- C3, counterexample: `launch_instance` is not exception-free and does not
skip the tunnel task on failure.  (i) With an unknown cprovider the
`ValueError` raised before the `try` block escapes the routine.  (ii) When
`create` fails, the status is set to `INIT_FAIL` and reported — but the
tunnel controller task is still spawned, while the claim says launch
returns without spawning it. -/
theorem C3_launch_never_raises_cx :
    launch_instance (WorkspaceInstance.init "proxy") "i1" "sshtun" none
        envCreateFail = .raised ∧
    launch_instance (WorkspaceInstance.init "docker") "i1" "sshtun" none
        envCreateFail
      = .completed
          { cprovider := "docker"
            status := "INIT_FAIL"
            container_name := "rrc"
            instance_id := some "i1"
            tunnelhub := none
            tunnel_task := false
            conntype := some "sshtun"
            tunnelkey_path := none
            tunnelkey_public := none
            container_addr := none
            container_port_ssh := none
            hostkey := none }
          [.instanceStatus "INIT_FAIL"] true :=
  ⟨rfl, rfl⟩

/-- C3, amended: for `docker`/`podman` cproviders `launch_instance` never
raises — any provisioning failure sets the status to `INIT_FAIL` and the
emitted `INSTANCE_STATUS` carries the final status — but the tunnel
controller task is spawned unconditionally, failure or not; and for any
other cprovider the routine raises `ValueError` before provisioning. -/
theorem C3_launch_never_raises_amended :
    (∀ (inst0 : WorkspaceInstance) (iid ct : String) (tkp : Option String)
        (env : LaunchEnv),
      (inst0.cprovider = "docker" ∨ inst0.cprovider = "podman") →
      ∃ inst, launch_instance inst0 iid ct tkp env
          = .completed inst [.instanceStatus inst.status] true ∧
        (inst.status = inst0.status ∨ inst.status = "INIT_FAIL")) ∧
    (∀ (inst0 : WorkspaceInstance) (iid ct : String) (tkp : Option String)
        (env : LaunchEnv),
      inst0.cprovider ≠ "docker" → inst0.cprovider ≠ "podman" →
      launch_instance inst0 iid ct tkp env = .raised) := by
  constructor
  · exact fun inst0 iid ct tkp env hcp =>
      launch_instance_completes inst0 iid ct tkp env hcp
  · intro inst0 iid ct tkp env h1 h2
    unfold launch_instance
    rw [if_pos ⟨h1, h2⟩]

/-- Concrete exercise of `C3_launch_never_raises_amended`. -/
theorem C3_launch_never_raises_amended_witness :
    (∃ inst, launch_instance (WorkspaceInstance.init "docker") "i1" "sshtun"
        none envCreateFail
        = .completed inst [.instanceStatus inst.status] true ∧
      (inst.status = (WorkspaceInstance.init "docker").status ∨
        inst.status = "INIT_FAIL")) ∧
    launch_instance (WorkspaceInstance.init "lxd") "i1" "sshtun" none
      envCreateFail = .raised :=
  ⟨C3_launch_never_raises_amended.1 _ "i1" "sshtun" none envCreateFail
      (Or.inl rfl),
   C3_launch_never_raises_amended.2 _ "i1" "sshtun" none envCreateFail
      (by simp [WorkspaceInstance.init]) (by simp [WorkspaceInstance.init])⟩

/-- Helper: a host-key poll that never succeeds exhausts the deadline and
returns `None`. -/
theorem get_container_hostkey_all_fail (t : Nat) (poll : Nat → Option String)
    (h : ∀ n, poll n = none) : get_container_hostkey t poll = none := by
  induction t with
  | zero => rfl
  | succ t ih => rw [get_container_hostkey, h, ih]

/-- Helper: a forwarded-port poll that never succeeds exhausts the deadline
and returns `None`. -/
theorem get_container_sshport_all_fail (t : Nat) (poll : Nat → Option Nat)
    (h : ∀ n, poll n = none) : get_container_sshport t poll = none := by
  induction t with
  | zero => rfl
  | succ t ih => rw [get_container_sshport, h, ih]

/-- Environment for the C8 counterexample: everything succeeds except that
the host-key poll and the forwarded-port poll never produce a result. -/
def envPollTimeout : LaunchEnv :=
  { pubkeyFile := some "PUB"
    createOk := true
    inspectAddr := some "172.17.0.2"
    sshPortPoll := fun _ => none
    hostkeyPoll := fun _ => none
    prepareOk := true }

/-- C8, counterexample: launch timeouts do not all surface as `INIT_FAIL`.
With the host-key poll timing out after its 45 s deadline (docker) the
launch still completes with status `INIT` and `hostkey = None`; with the
forwarded-ssh-port poll timing out after its 10 s deadline (podman) the
launch also completes with status `INIT` and `container_port_ssh = None`.
The emitted `INSTANCE_STATUS` carries `INIT`, not the `INIT_FAIL` the claim
requires. -/
theorem C8_timeout_initfail_cx :
    get_container_hostkey 45 (fun _ => none) = none ∧
    launch_instance (WorkspaceInstance.init "docker") "i1" "sshtun"
        (some "/root/.ssh/tunnelkey") envPollTimeout
      = .completed
          { cprovider := "docker"
            status := "INIT"
            container_name := "rrc"
            instance_id := some "i1"
            tunnelhub := none
            tunnel_task := false
            conntype := some "sshtun"
            tunnelkey_path := some "/root/.ssh/tunnelkey"
            tunnelkey_public := some "PUB"
            container_addr := some "172.17.0.2"
            container_port_ssh := some 22
            hostkey := none }
          [.instanceStatus "INIT"] true ∧
    get_container_sshport 10 (fun _ => none) = none ∧
    launch_instance (WorkspaceInstance.init "podman") "i1" "sshtun"
        (some "/root/.ssh/tunnelkey") envPollTimeout
      = .completed
          { cprovider := "podman"
            status := "INIT"
            container_name := "rrc"
            instance_id := some "i1"
            tunnelhub := none
            tunnel_task := false
            conntype := some "sshtun"
            tunnelkey_path := some "/root/.ssh/tunnelkey"
            tunnelkey_public := some "PUB"
            container_addr := some "127.0.0.1"
            container_port_ssh := none
            hostkey := none }
          [.instanceStatus "INIT"] true :=
  ⟨rfl, rfl, rfl, rfl⟩

/-- C8, amended: of the three probes, only a missing container address is
surfaced as `INIT_FAIL` (through the `assert`); a host-key poll timeout and
a forwarded-ssh-port poll timeout store `None` and launch proceeds,
reporting status `INIT`. -/
theorem C8_timeout_amended :
    (∀ (iid ct : String) (env : LaunchEnv),
      env.createOk = true → env.inspectAddr = none →
      ∃ inst, launch_instance (WorkspaceInstance.init "docker") iid ct none env
          = .completed inst [.instanceStatus "INIT_FAIL"] true ∧
        inst.status = "INIT_FAIL" ∧ inst.container_addr = none) ∧
    (∀ (iid ct addr : String) (env : LaunchEnv),
      env.createOk = true → env.prepareOk = true →
      env.inspectAddr = some addr → (∀ n, env.hostkeyPoll n = none) →
      ∃ inst, launch_instance (WorkspaceInstance.init "docker") iid ct none env
          = .completed inst [.instanceStatus "INIT"] true ∧
        inst.status = "INIT" ∧ inst.hostkey = none) ∧
    (∀ (iid ct : String) (env : LaunchEnv),
      env.createOk = true → env.prepareOk = true →
      (∀ n, env.sshPortPoll n = none) →
      ∃ inst, launch_instance (WorkspaceInstance.init "podman") iid ct none env
          = .completed inst [.instanceStatus "INIT"] true ∧
        inst.status = "INIT" ∧ inst.container_port_ssh = none) := by
  refine ⟨?_, ?_, ?_⟩
  · intro iid ct env hco hia
    refine ⟨{ cprovider := "docker", status := "INIT_FAIL",
              container_name := "rrc", instance_id := some iid,
              tunnelhub := none, tunnel_task := false, conntype := some ct,
              tunnelkey_path := none, tunnelkey_public := none,
              container_addr := none, container_port_ssh := some 22,
              hostkey := get_container_hostkey 45 env.hostkeyPoll },
            ?_, rfl, rfl⟩
    unfold launch_instance launch_body
    simp [hco, hia, WorkspaceInstance.init]
  · intro iid ct addr env hco hpo hia hpoll
    refine ⟨{ cprovider := "docker", status := "INIT",
              container_name := "rrc", instance_id := some iid,
              tunnelhub := none, tunnel_task := false, conntype := some ct,
              tunnelkey_path := none, tunnelkey_public := none,
              container_addr := some addr, container_port_ssh := some 22,
              hostkey := none },
            ?_, rfl, rfl⟩
    unfold launch_instance launch_body
    simp [hco, hpo, hia, WorkspaceInstance.init,
      get_container_hostkey_all_fail _ _ hpoll]
  · intro iid ct env hco hpo hpoll
    refine ⟨{ cprovider := "podman", status := "INIT",
              container_name := "rrc", instance_id := some iid,
              tunnelhub := none, tunnel_task := false, conntype := some ct,
              tunnelkey_path := none, tunnelkey_public := none,
              container_addr := some "127.0.0.1", container_port_ssh := none,
              hostkey := get_container_hostkey 45 env.hostkeyPoll },
            ?_, rfl, rfl⟩
    unfold launch_instance launch_body
    simp [hco, hpo, WorkspaceInstance.init,
      get_container_sshport_all_fail _ _ hpoll]

/-- Concrete exercise of `C8_timeout_amended`. -/
theorem C8_timeout_amended_witness :
    (∃ inst, launch_instance (WorkspaceInstance.init "docker") "i1" "sshtun"
        none
        { pubkeyFile := none, createOk := true, inspectAddr := none,
          sshPortPoll := fun _ => none, hostkeyPoll := fun _ => none,
          prepareOk := true }
        = .completed inst [.instanceStatus "INIT_FAIL"] true ∧
      inst.status = "INIT_FAIL" ∧ inst.container_addr = none) ∧
    (∃ inst, launch_instance (WorkspaceInstance.init "podman") "i1" "sshtun"
        none
        { pubkeyFile := none, createOk := true, inspectAddr := none,
          sshPortPoll := fun _ => none, hostkeyPoll := fun _ => none,
          prepareOk := true }
        = .completed inst [.instanceStatus "INIT"] true ∧
      inst.status = "INIT" ∧ inst.container_port_ssh = none) :=
  ⟨C8_timeout_amended.1 "i1" "sshtun" _ rfl rfl,
   C8_timeout_amended.2.2 "i1" "sshtun" _ rfl rfl (fun _ => rfl)⟩

/-- State for the C5 counterexample and the C5 witness: no current
instance, an `ssh_key` path configured in the local configuration. -/
def c5state : ClientState :=
  { current := none
    wdeployment_id := "w1"
    cprovider := "docker"
    ssh_key := some "/root/.ssh/tunnelkey"
    recvmap_keys := [] }

/-- An `INSTANCE_LAUNCH` command with connection type `sshtun`. -/
def c5payload : Payload :=
  { v := some 0, cmd := some "INSTANCE_LAUNCH", mi := some "m1",
    id := some "i1", ct := some "sshtun", pr := some "PK" }

/-- C5, counterexample: with a configured tunnel key path whose file does
not exist on disk (`fileExists` is constantly false), the daemon logs the
warning but does NOT reply NACK — and does not reply at all: after
registering the receive queue, the `WorkspaceInstance(...)` constructor
call raises `TypeError` (api.py passes `cargs`/`image`/`terminate`, which
core.py's `__init__` does not accept), so the exception escapes the handler
with no frame sent, no instance created and no task spawned. -/
theorem C5_missing_keyfile_cx :
    handle_wsrecv c5state (fun _ => false) (.text c5payload)
      = .typeErr { current := none
                   wdeployment_id := "w1"
                   cprovider := "docker"
                   ssh_key := some "/root/.ssh/tunnelkey"
                   recvmap_keys := ["i1"] } 1 ∧
    HandleResult.typeErr { current := none
                           wdeployment_id := "w1"
                           cprovider := "docker"
                           ssh_key := some "/root/.ssh/tunnelkey"
                           recvmap_keys := ["i1"] } 1
      ≠ .ok c5state [.nack "m1"] [] false 1 :=
  ⟨rfl, by simp⟩

/-- C5, amended: with no current instance and a configured tunnel key path
that does not exist on disk, the daemon logs one warning and proceeds past
the check — it registers the receive queue for the command's `id`, and then
the `WorkspaceInstance(...)` constructor call raises `TypeError` (keyword
signature mismatch between api.py and core.py), which escapes
`handle_wsrecv`: no Instance is created, no sandbox operation executed, no
launch task spawned, and neither NACK nor ACK is sent.  (The claim's NACK
is sent only when the configuration declares no `ssh_key` at all.) -/
theorem C5_missing_keyfile_amended :
    ∀ (st : ClientState) (fe : String → Bool) (p : Payload)
      (k iid : String),
      st.current = none → st.ssh_key = some k → fe k = false →
      p.v = some 0 → p.cmd = some "INSTANCE_LAUNCH" → p.ct = some "sshtun" →
      p.id = some iid →
      handle_wsrecv st fe (.text p)
        = .typeErr { st with recvmap_keys := iid :: st.recvmap_keys } 1 := by
  intro st fe p k iid hcur hkey hfe hv hcmd hct hid
  simp [handle_wsrecv, hv, hcmd, handle_instance_launch, hcur, hct, hkey,
    hid, hfe]

/-- Concrete exercise of `C5_missing_keyfile_amended`. -/
theorem C5_missing_keyfile_amended_witness :
    handle_wsrecv c5state (fun _ => false) (.text c5payload)
      = .typeErr { c5state with recvmap_keys := ["i1"] } 1 :=
  C5_missing_keyfile_amended c5state (fun _ => false) c5payload
    "/root/.ssh/tunnelkey" "i1" rfl rfl rfl rfl rfl rfl rfl

/-- Modelled from the spec: the `TH_PING` acknowledgement condition as the
specification words it — ACK exactly when a current Instance exists, the
ping-e `id` matches the instance recorded `instance_id`, and the ping-e
`thid` matches the recorded tunnel-hub association.  For comparison with
`th_ping_is_ack`, which compares `id` against the workspace-deployment
identifier instead. -/
def th_ping_ack_spec (st : ClientState) (p : Payload) : Bool :=
  match st.current, p.id, p.thid with
  | some c, some pid, some thid =>
    decide (c.instance_id = some pid) &&
      (match c.tunnelhub with
       | some th => decide (th.id = thid)
       | none => false)
  | _, _, _ => false

/-- Hub association for the C6 counterexample. -/
def c6hub : TunnelHub :=
  { id := "h1", ipv4 := "10.0.0.9", hostkey := "HOSTK",
    listen_port := "2210", connect_port := "2222", connect_user := "th" }

/-- State for the C6 counterexample: a current instance with id `i1` and a
recorded hub `h1`, under workspace deployment `w1`. -/
def c6state : ClientState :=
  { current := some { WorkspaceInstance.init "docker" with
                        instance_id := some "i1", tunnelhub := some c6hub }
    wdeployment_id := "w1"
    cprovider := "docker"
    ssh_key := none
    recvmap_keys := ["i1"] }

/-- A `TH_PING` carrying the instance identifier `i1` and hub `h1`. -/
def c6payload : Payload :=
  { v := some 0, cmd := some "TH_PING", mi := some "m5",
    id := some "i1", thid := some "h1" }

/-- C6, counterexample: a `TH_PING` whose `id` equals the current
instance identifier (and whose `thid` matches the recorded hub) satisfies
the claim ACK condition, yet the code replies `NACK`, because it compares
the ping-e `id` against the workspace deployment id (`w1`), not the
instance id (`i1`). -/
theorem C6_th_ping_cx :
    th_ping_ack_spec c6state c6payload = true ∧
    handle_wsrecv c6state (fun _ => false) (.text c6payload)
      = .ok c6state [.pingResp "NACK" "h1" "w1" "m5"] [] false 0 ∧
    ("NACK" : String) ≠ "ACK" :=
  ⟨rfl, rfl, by simp⟩

/-- C6, amended: the reply to a `TH_PING` always carries the ping-e
`thid`, the workspace deployment id and the ping-e `mi`, and its command
is ACK exactly when an instance is current, the ping-e `id` equals the
*workspace deployment* identifier (not the instance identifier), and the
recorded tunnel hub id equals the ping-e `thid`; otherwise NACK. -/
theorem C6_th_ping_amended :
    ∀ (st : ClientState) (fe : String → Bool) (p : Payload) (thid mi : String),
      p.v = some 0 → p.cmd = some "TH_PING" → p.thid = some thid →
      p.mi = some mi →
      handle_wsrecv st fe (.text p)
        = .ok st [.pingResp (if th_ping_is_ack st p then "ACK" else "NACK")
            thid st.wdeployment_id mi] [] false 0 ∧
      (th_ping_is_ack st p = true ↔
        ∃ c th, st.current = some c ∧ p.id = some st.wdeployment_id ∧
          c.tunnelhub = some th ∧ th.id = thid) := by
  intro st fe p thid mi hv hcmd hthid hmi
  constructor
  · simp [handle_wsrecv, hv, hcmd, handle_th_ping, hthid, hmi]
  · unfold th_ping_is_ack
    rw [hthid]
    cases hc : st.current with
    | none => simp
    | some c =>
      cases hid : p.id with
      | none => simp
      | some pid =>
        dsimp only
        obtain hth | ⟨th, hth⟩ :
            c.tunnelhub = none ∨ ∃ th, c.tunnelhub = some th := by
          cases c.tunnelhub with
          | none => exact Or.inl rfl
          | some th => exact Or.inr ⟨th, rfl⟩
        · rw [hth]
          simp [hth]
        · rw [hth]
          simp only [Bool.and_eq_true, decide_eq_true_eq]
          constructor
          · rintro ⟨h1, h2⟩
            exact ⟨c, th, rfl, by rw [h1], hth, h2⟩
          · rintro ⟨c2, th2, hc2, hpid2, hth2, hthid2⟩
            injection hc2 with hcc
            subst hcc
            rw [hth] at hth2
            injection hth2 with htt
            subst htt
            injection hpid2 with hpp
            exact ⟨hpp.symm, hthid2⟩

/-- Concrete exercise of `C6_th_ping_amended`. -/
theorem C6_th_ping_amended_witness :
    handle_wsrecv c6state (fun _ => false) (.text c6payload)
      = .ok c6state
          [.pingResp (if th_ping_is_ack c6state c6payload then "ACK" else "NACK")
            "h1" "w1" "m5"] [] false 0 ∧
    (th_ping_is_ack c6state c6payload = true ↔
      ∃ c th, c6state.current = some c ∧
        c6payload.id = some c6state.wdeployment_id ∧
        c.tunnelhub = some th ∧ th.id = "h1") :=
  C6_th_ping_amended c6state (fun _ => false) c6payload "h1" "m5"
    rfl rfl rfl rfl

/-- Number of `ACK` frames carrying correlation id `mi` in a frame list. -/
def ackCount (mi : String) (fs : List Frame) : Nat :=
  fs.countP (fun f => decide (f = Frame.ack mi))

/-- C7: a hub-discovery round with no recorded hub sends one `TH_SEARCH`
carrying the instance id, the connection mode and the (truthy) tunnel
public key; on a well-addressed `TH_ACCEPT` it records the full hub
association and emits exactly one `ACK` whose `mi` equals the `mi` of the
`TH_ACCEPT`. -/
theorem C7_hub_discovery_ack :
    ∀ (inst : WorkspaceInstance) (res : THAccept),
      inst.tunnelhub = none → res.v = 0 →
      inst.instance_id = some res.id → res.cmd = "TH_ACCEPT" →
      find_tunnelhub inst res
        = .ok ({ inst with
                   tunnelhub := some
                     { id := res.thid, ipv4 := res.ipv4,
                       hostkey := res.hostkey, listen_port := res.port,
                       connect_port := res.thport,
                       connect_user := res.thuser } },
               [.thSearch inst.instance_id inst.conntype
                  (truthy_key inst.tunnelkey_public), .ack res.mi]) ∧
      ackCount res.mi
        [.thSearch inst.instance_id inst.conntype
          (truthy_key inst.tunnelkey_public), .ack res.mi] = 1 := by
  intro inst res hth hv hid hcmd
  constructor
  · unfold find_tunnelhub
    simp [hth, hv, hid, hcmd]
  · simp [ackCount]

/-- Instance ready for hub discovery, for the C7 witness. -/
def c7inst : WorkspaceInstance :=
  { WorkspaceInstance.init "docker" with
      instance_id := some "i1", conntype := some "sshtun",
      tunnelkey_public := some "PUB" }

/-- Concrete exercise of `C7_hub_discovery_ack`. -/
theorem C7_hub_discovery_ack_witness :
    find_tunnelhub c7inst thAcceptI1
      = .ok ({ c7inst with
                 tunnelhub := some
                   { id := "h1", ipv4 := "10.0.0.9", hostkey := "HOSTK",
                     listen_port := "2210", connect_port := "2222",
                     connect_user := "th" } },
             [.thSearch (some "i1") (some "sshtun") (truthy_key (some "PUB")),
              .ack "m2"]) ∧
    ackCount "m2"
      [.thSearch (some "i1") (some "sshtun") (truthy_key (some "PUB")),
       .ack "m2"] = 1 :=
  C7_hub_discovery_ack c7inst thAcceptI1 rfl rfl rfl rfl

/-- C9, counterexample: `destroy_instance` removes the sandbox FIRST and
cancels the tunnel task only afterwards — the action order is
`[rm, cancel, wait]`, not the `[cancel, wait, rm]` the claim requires. -/
theorem C9_destroy_order_cx :
    destroy_instance
        { WorkspaceInstance.init "docker" with tunnel_task := true } true
      = .ok (WorkspaceInstance.init "docker")
          [.rmContainer, .cancelTunnel, .waitTunnel] ∧
    [DAction.rmContainer, DAction.cancelTunnel, DAction.waitTunnel]
      ≠ [DAction.cancelTunnel, DAction.waitTunnel, DAction.rmContainer] :=
  ⟨rfl, by simp⟩

/-- C9, amended: `destroy_instance` force-removes the sandbox first and only
then cancels the tunnel task and waits for it (clearing the reference); a
second call, with no tunnel task left, just re-runs the force-remove and
leaves the state unchanged when that subprocess succeeds — and raises
(`subprocess.check_call`) when it does not. -/
theorem C9_destroy_amended :
    ∀ (inst : WorkspaceInstance),
      (inst.tunnel_task = true →
        destroy_instance inst true
          = .ok { inst with tunnel_task := false }
              [.rmContainer, .cancelTunnel, .waitTunnel]) ∧
      (inst.tunnel_task = false →
        destroy_instance inst true = .ok inst [.rmContainer]) ∧
      destroy_instance inst false = .raised [.rmContainer] := by
  intro inst
  refine ⟨?_, ?_, ?_⟩
  · intro h
    simp [destroy_instance, h]
  · intro h
    simp [destroy_instance, h]
  · simp [destroy_instance]

/-- Concrete exercise of `C9_destroy_amended`. -/
theorem C9_destroy_amended_witness :
    destroy_instance
        { WorkspaceInstance.init "podman" with tunnel_task := true } true
      = .ok (WorkspaceInstance.init "podman")
          [.rmContainer, .cancelTunnel, .waitTunnel] ∧
    destroy_instance (WorkspaceInstance.init "podman") true
      = .ok (WorkspaceInstance.init "podman") [.rmContainer] :=
  ⟨(C9_destroy_amended _).1 rfl, (C9_destroy_amended _).2.1 rfl⟩

/-- C4, counterexample: (i) after a protocol-violation failure
(`streamFail true`) the loop does NOT stop — it goes on and reconnects (the
next event is processed and a successful reconnection clears the marker),
contradicting the claim that no reconnection is attempted on protocol
violations; (ii) when reconnection has failed continuously for more than 20
minutes the loop ends with a normal return (`.ok .gaveUp`), not by
propagating the error as the claim states. -/
theorem C4_reconnection_cx :
    run_loop none [.streamFail true 5, .streamClosed] = .ok (.pending none) ∧
    run_loop none [.connectFail 0, .connectFail 1300] = .ok .gaveUp ∧
    Except.ok RunOutcome.gaveUp ≠ (Except.error () : Except Unit RunOutcome) :=
  ⟨rfl, rfl, by simp⟩

/-- C4, amended: reconnection is attempted after every failure that is not
a cancellation — protocol violations included, since the `ValueError` is
caught by the generic `except Exception` clause; a successful reconnection
clears the first-loss marker; cancellation ends the loop; a failure more
than 20 minutes after the first loss ends the loop with a normal return —
`run` never propagates the error. -/
theorem C4_reconnection_amended :
    (∀ (lost : Option Nat) (p : Bool) (t : Nat) (evs : List ConnEvent),
      run_loop lost (ConnEvent.streamFail p t :: evs)
        = run_loop (some t) evs) ∧
    (∀ (lost : Option Nat) (evs : List ConnEvent),
      run_loop lost (ConnEvent.streamClosed :: evs) = run_loop none evs) ∧
    (∀ (lost : Option Nat) (evs : List ConnEvent),
      run_loop lost (ConnEvent.cancel :: evs) = .ok .cancelledExit) ∧
    (∀ (t : Nat) (evs : List ConnEvent),
      run_loop none (ConnEvent.connectFail t :: evs)
        = run_loop (some t) evs) ∧
    (∀ (t0 t : Nat) (evs : List ConnEvent),
      run_loop (some t0) (ConnEvent.connectFail t :: evs)
        = if t - t0 > 1200 then .ok .gaveUp
          else run_loop (some t0) evs) ∧
    (∀ (lost : Option Nat) (evs : List ConnEvent),
      run_loop lost evs ≠ .error ()) := by
  refine ⟨?_, ?_, ?_, ?_, ?_, ?_⟩
  · intro lost p t evs
    simp [run_loop, run_step]
  · intro lost evs
    simp [run_loop, run_step]
  · intro lost evs
    simp [run_loop, run_step]
  · intro t evs
    simp [run_loop, run_step]
  · intro t0 t evs
    by_cases h : t - t0 > 1200 <;> simp [run_loop, run_step, h]
  · intro lost evs
    induction evs generalizing lost with
    | nil => simp [run_loop]
    | cons e rest ih =>
      cases e with
      | cancel => simp [run_loop, run_step]
      | connectFail t =>
        cases lost with
        | none => simpa [run_loop, run_step] using ih (some t)
        | some t0 =>
          by_cases h : t - t0 > 1200
          · simp [run_loop, run_step, h]
          · simpa [run_loop, run_step, h] using ih (some t0)
      | streamFail p t => simpa [run_loop, run_step] using ih (some t)
      | streamClosed => simpa [run_loop, run_step] using ih none

/-- C10: the read-only inspection probes the fixed socket path
`~/.rerobots/hardshare.sock`, while the daemon binds
`~/.rerobots/hardshare.<workspace_id>.sock`; the two paths differ for every
workspace identifier, so with only the daemon socket bound the probe
cannot connect and `daemon_found` is `False`. -/
theorem C10_inspect_daemon_not_found :
    ∀ (home wdid : String),
      inspect_probe_path home ≠ daemon_socket_path home wdid ∧
      inspect_daemon_found home [daemon_socket_path home wdid] = false := by
  intro home wdid
  have hne : inspect_probe_path home ≠ daemon_socket_path home wdid := by
    intro h
    unfold inspect_probe_path daemon_socket_path at h
    have hl := congrArg String.length h
    simp [String.length_append] at hl
    have h1 : (String.length "/.rerobots/hardshare.sock") = 25 := rfl
    have h2 : (String.length "/.rerobots/hardshare.") = 21 := rfl
    have h3 : (String.length ".sock") = 5 := rfl
    omega
  refine ⟨hne, ?_⟩
  simp [inspect_daemon_found]
  exact hne

end Hardshare
